import Mathlib

/-!
Verification of the clockbutler controller (`src/main.py`) against its
natural-language specification.

The Python source is shallowly embedded: the mutable `Butler` object becomes
an explicit state record, each method becomes a Lean function on that record,
and Python runtime errors (`TypeError`, `IndexError`, `NameError`, ...) are
made explicit with `Except`.  Python-specific semantics that matter to the
claims are modelled faithfully: `json.loads` may return any JSON value (not
only arrays), `len` raises `TypeError` on numbers, comparing `None` with an
integer raises `TypeError`, `if x:` on an integer tests truthiness (0 is
falsy), and list subscription supports negative indices and raises
`IndexError` out of range.
-/

namespace ClockButler

/-- Python runtime errors that can arise in the embedded code paths. -/
inductive PyErr where
  | typeError
  | indexError
  | keyError
  | nameError
  | attributeError
  | mqttError
  | osError
  deriving DecidableEq, Repr

/-- JSON values, the possible results of `json.loads`. -/
inductive Json where
  | jnull
  | jbool (b : Bool)
  | jnum (n : Int)
  | jstr (s : String)
  | jarr (xs : List Json)
  | jobj (kvs : List (String × Json))

/-- Python `len(v)`: defined for strings, lists and dicts; `none` models the
`TypeError` raised for numbers, booleans and `None`. -/
def pyLen : Json → Option Int
  | .jstr s => some s.length
  | .jarr xs => some xs.length
  | .jobj kvs => some kvs.length
  | _ => none

/-- Python subscription `v[i]` with an integer index: list and string
subscription supports negative indices (counted from the end) and raises
`IndexError` out of range; dict subscription with an integer key raises
`KeyError` (the embedded dicts have string keys); other values raise
`TypeError`. -/
def pyIndex (v : Json) (i : Int) : Except PyErr Json :=
  match v with
  | .jarr xs =>
      let n : Int := xs.length
      let j : Int := if i < 0 then i + n else i
      if 0 ≤ j ∧ j < n then .ok (xs.getD j.toNat .jnull) else .error .indexError
  | .jstr s =>
      let n : Int := s.length
      let j : Int := if i < 0 then i + n else i
      if 0 ≤ j ∧ j < n then .ok (.jstr (String.mk [s.toList.getD j.toNat ' ']))
      else .error .indexError
  | .jobj _ => .error .keyError
  | _ => .error .typeError

/-- Lookup in a Python dict with integer keys (`self.favorite_dict`),
modelled as an insertion-ordered association list. -/
def dictGet (d : List (Int × Int)) (k : Int) : Option Int :=
  match d with
  | [] => none
  | (a, b) :: t => if a = k then some b else dictGet t k

/-- Assignment `d[k] = v` in a Python dict with integer keys. -/
def dictSet (d : List (Int × Int)) (k v : Int) : List (Int × Int) :=
  match d with
  | [] => [(k, v)]
  | (a, b) :: t => if a = k then (k, v) :: t else (a, b) :: dictSet t k v

/-- The mutable state of the `Butler` object (`src/main.py`, `__init__`):
`script_list` (any JSON value after `set_scripts`), `favorite_dict`, and the
optional `current_position`.  Positions are `Int` because `dec_current` can
produce `len - 1 = -1` on an empty list. -/
structure Butler where
  script_list : Json
  favorite_dict : List (Int × Int)
  current_position : Option Int

/-- Embedding of `Butler.__init__`: `script_list = []`, `favorite_dict = {}`,
`current_position = None`. -/
def Butler.init : Butler :=
  { script_list := .jarr [], favorite_dict := [], current_position := none }

/-- Embedding of `set_scripts(names)` (`src/main.py` lines 40-46).  The argument is the
result of `json.loads(names)`: `none` models a parse exception.  On a parse
exception nothing was yet assigned and the handler logs and returns.  When
parsing succeeds the parsed value is assigned to `script_list` *first*; the
subsequent `len(...)` raises `TypeError` for non-sized values, which the
`except` clause also swallows — leaving the assignment in place.
`current_position` is set to 0 only when `len > 0`; it is left unchanged
otherwise. -/
def set_scripts (b : Butler) (parsed : Option Json) : Butler :=
  match parsed with
  | none => b
  | some v =>
      match pyLen v with
      | none => { b with script_list := v }
      | some n =>
          if 0 < n then { b with script_list := v, current_position := some 0 }
          else { b with script_list := v }

/-- Embedding of `inc_current()` (`src/main.py` lines 48-52).  Evaluating
`self.current_position < len(self.script_list) - 1` first computes the
`len` (raising `TypeError` for non-sized `script_list`), then compares:
`None < int` raises `TypeError` in Python 3. -/
def inc_current (b : Butler) : Except PyErr Butler :=
  match pyLen b.script_list with
  | none => .error .typeError
  | some n =>
      match b.current_position with
      | none => .error .typeError
      | some p =>
          if p < n - 1 then .ok { b with current_position := some (p + 1) }
          else .ok { b with current_position := some 0 }

/-- Embedding of `dec_current()` (`src/main.py` lines 54-58).  `self.current_position > 0`
raises `TypeError` when the position is `None`; the else-branch evaluates
`len(self.script_list) - 1` (yielding `-1` on an empty list). -/
def dec_current (b : Butler) : Except PyErr Butler :=
  match b.current_position with
  | none => .error .typeError
  | some p =>
      if 0 < p then .ok { b with current_position := some (p - 1) }
      else
        match pyLen b.script_list with
        | none => .error .typeError
        | some n => .ok { b with current_position := some (n - 1) }

/-- Embedding of `get_current()` (`src/main.py` lines 60-62): returns `None` when no
position is set, otherwise subscripts `script_list` (which can raise). -/
def get_current (b : Butler) : Except PyErr (Option Json) :=
  match b.current_position with
  | none => .ok none
  | some p => do
      let v ← pyIndex b.script_list p
      .ok (some v)

/-- Embedding of `set_favorite(index)` (`src/main.py` lines 64-65):
`if self.current_position:` tests Python truthiness, so the guard is false
both for `None` and for the integer 0. -/
def set_favorite (b : Butler) (index : Int) : Butler :=
  match b.current_position with
  | none => b
  | some p =>
      if p ≠ 0 then { b with favorite_dict := dictSet b.favorite_dict index p }
      else b

/-- Embedding of `get_favorite(index)` (`src/main.py` lines 67-70): returns `None` when
the slot is unassigned, otherwise subscripts `script_list` at the stored
position with no bounds re-validation (the subscript can raise
`IndexError`). -/
def get_favorite (b : Butler) (index : Int) : Except PyErr (Option Json) :=
  match dictGet b.favorite_dict index with
  | none => .ok none
  | some pos => do
      let v ← pyIndex b.script_list pos
      .ok (some v)

/-- Iteration of `inc_current` `k` times (propagating any raised exception). -/
def incN : Nat → Butler → Except PyErr Butler
  | 0, b => .ok b
  | k + 1, b => do
      let b1 ← incN k b
      inc_current b1

/-! ### Configuration and the asynchronous handlers

`read_config` returns the parsed YAML dict, or `None` when reading failed
(`src/main.py` lines 30-38); `self.config["key"]` on `None` raises
`TypeError`.  A successfully loaded configuration is modelled as a record of
the keys the handlers use.  External effects (subprocess spawning, exit
codes, file probing, synthesis, bus publishing) are modelled as oracle
inputs describing the outcome the environment would produce. -/

/-- A successfully parsed configuration file. -/
structure Config where
  mqtt_host : String
  mqtt_prefix : String
  interval : Int
  sounds_path : String
  speech_path : String
  model : String
  device : String
  deriving DecidableEq, Repr

/-- Embedding of `self.config["key"]`: subscription raises `TypeError` when `read_config`
returned `None`. -/
def cfgGet (cfg : Option Config) : Except PyErr Config :=
  match cfg with
  | none => .error .typeError
  | some c => .ok c

/-- Outcome of one external `aplay` subprocess invocation: whether
`create_subprocess_exec` itself succeeds, and the process exit code. -/
structure AplayEnv where
  spawnOk : Bool
  rc : Int
  deriving DecidableEq, Repr

/-- Environment outcomes for one `say` command: speech-cache hit
(`os.path.isfile`), voice-model load, synthesis, and the playback. -/
structure SayEnv where
  fileCached : Bool
  loadOk : Bool
  synthOk : Bool
  aplayEnv : AplayEnv
  deriving DecidableEq, Repr

/-- Environment outcomes for one `volume` command: whether the `amixer`
subprocess spawns, and its exit code. -/
structure VolumeEnv where
  spawnOk : Bool
  rc : Int
  deriving DecidableEq, Repr

/-- Environment outcomes for one button-press handling: whether
`self.mqtt_client` is already set (it is `None` until `mqtt_listener`
connects), whether the publish succeeds, and the beep playback outcome. -/
structure PressEnv where
  clientConnected : Bool
  publishOk : Bool
  aplayEnv : AplayEnv
  deriving DecidableEq, Repr

/-- Embedding of `try: body ... except Exception: logging.error(...)`: any
exception raised by the body is logged and swallowed; the handler returns
normally. -/
def tryExcept (body : Except PyErr Unit) : Except PyErr Unit :=
  match body with
  | .ok _ => .ok ()
  | .error _ => .ok ()

/-- Body of the `try` block of `aplay` (`src/main.py` lines 169-181): read
`config["device"]`, spawn the subprocess, await its exit; a nonzero exit
code is only logged (not raised). -/
def aplayBody (cfg : Option Config) (env : AplayEnv) : Except PyErr Unit := do
  let _ ← cfgGet cfg
  if env.spawnOk then .ok () else .error .osError

/-- Embedding of `aplay(filename)` (`src/main.py` lines 168-184): the whole body is
wrapped in `try/except Exception`, so `aplay` never raises. -/
def aplay (cfg : Option Config) (env : AplayEnv) : Except PyErr Unit :=
  tryExcept (aplayBody cfg env)

/-- Body of the `try` block of `play` (`src/main.py` lines 143-146): read
`config["sounds_path"]`, build the filename, call `aplay`. -/
def playBody (cfg : Option Config) (env : AplayEnv) : Except PyErr Unit := do
  let _ ← cfgGet cfg
  aplay cfg env

/-- Embedding of `play(sound)` (`src/main.py` lines 142-149): body wrapped in
`try/except Exception`. -/
def play (cfg : Option Config) (env : AplayEnv) : Except PyErr Unit :=
  tryExcept (playBody cfg env)

/-- Body of the `try` block of `say` (`src/main.py` lines 152-163): read
`config["model"]` and `config["speech_path"]`; on a cache miss load the
voice model and synthesize (either step may raise); then `aplay` (which
never raises). -/
def sayBody (cfg : Option Config) (env : SayEnv) : Except PyErr Unit := do
  let _ ← cfgGet cfg
  if env.fileCached then aplay cfg env.aplayEnv
  else if ¬ env.loadOk then .error .osError
  else if ¬ env.synthOk then .error .osError
  else aplay cfg env.aplayEnv

/-- Embedding of `say(speech)` (`src/main.py` lines 151-166): body wrapped in
`try/except Exception`. -/
def say (cfg : Option Config) (env : SayEnv) : Except PyErr Unit :=
  tryExcept (sayBody cfg env)

/-! ### The `volume` handler

`volume` (`src/main.py` lines 122-140) runs `amixer`; on exit code 0 it
then executes `filename = self.config["sounds_path"]` followed by
`filename = os.path.join(path, "beep.wav")`.  The name `path` is bound
neither in the local scope of the function nor at module level, so that line
raises `NameError` (and the next line, `await aplay(filename)`, would
likewise look up the unbound bare name `aplay`).  Python name resolution is
modelled explicitly with the local scope of the handler. -/

/-- Names bound in the local scope of `volume` by the time line 135 runs:
the parameters and earlier assignments. -/
def volumeLocals : List String :=
  ["self", "level", "process", "stdout", "stderr", "filename"]

/-- Python name resolution against a scope; an unbound name raises
`NameError`. -/
def lookupName (scope : List String) (n : String) : Except PyErr Unit :=
  if n ∈ scope then .ok () else .error .nameError

/-- Observable effects of one `volume` command: whether the mixer process
ran, whether the volume change took effect (mixer exited 0), whether the
confirmation beep playback was reached, and whether an error was logged. -/
structure VolEffects where
  mixerInvoked : Bool
  volumeApplied : Bool
  beepPlayed : Bool
  errorLogged : Bool
  deriving DecidableEq, Repr

/-- Body of the `try` block of `volume`: returns the effects produced so far and the
exception raised, if any.  The volume change itself is an external effect of
the already-exited mixer process, so it stays in force even when a later
statement raises. -/
def volumeBody (cfg : Option Config) (env : VolumeEnv) : VolEffects × Option PyErr :=
  if ¬ env.spawnOk then
    (⟨false, false, false, false⟩, some .osError)
  else if env.rc = 0 then
    match cfg with
    | none => (⟨true, true, false, false⟩, some .typeError)
    | some _ =>
        match lookupName volumeLocals "path" with
        | .error e => (⟨true, true, false, false⟩, some e)
        | .ok _ =>
            match lookupName volumeLocals "aplay" with
            | .error e => (⟨true, true, false, false⟩, some e)
            | .ok _ => (⟨true, true, true, false⟩, none)
  else
    (⟨true, false, false, true⟩, none)

/-- Embedding of `volume(level)` (`src/main.py` lines 122-140): the `except Exception`
clause logs and swallows any raised exception, so no exception escapes the
handler. -/
def volume (cfg : Option Config) (env : VolumeEnv) : VolEffects × Option PyErr :=
  match volumeBody cfg env with
  | (eff, some _) => ({ eff with errorLogged := true }, none)
  | (eff, none) => (eff, none)

/-- One button-press handling in `gpi_listener` (`src/main.py` lines
77-84).  Unlike the command handlers, this path has *no* `try/except`:
`self.config["sounds_path"]` (raises `TypeError` when config is `None`),
`self.get_current()` (can raise `IndexError`), `self.mqtt_client.publish`
(raises `AttributeError` when the client is still `None`, or `MqttError` on
a publish failure) all propagate out of the loop body and terminate the
`gpi_listener` task. -/
def gpi_press (cfg : Option Config) (env : PressEnv) (b : Butler) :
    Except PyErr Unit := do
  let _ ← cfgGet cfg
  let _ ← get_current b
  if ¬ env.clientConnected then .error .attributeError
  else if ¬ env.publishOk then .error .mqttError
  else aplay cfg env.aplayEnv

/-- A concrete loaded configuration, for instantiating theorems. -/
def Config.sample : Config :=
  { mqtt_host := "localhost", mqtt_prefix := "butler", interval := 60
    sounds_path := "/sounds", speech_path := "/speech"
    model := "voice.onnx", device := "hw:0" }

/-! ### Device-level interleaving of playback operations

Two tasks (for instance the button watcher playing the acknowledgment beep,
and the mqtt listener handling a `play` command) can each call `aplay`
concurrently.  At the device, one `aplay` call is the event sequence
"spawn the subprocess, then its exit" — `await process.communicate()`
(line 177) is an asyncio suspension point between the two, and `aplay`
acquires no lock or other mutual-exclusion primitive before spawning, so
the scheduler is free to run the other task between the spawn and the exit of one task while another runs, so
every order-preserving merge of the two per-task sequences is a
schedulable device trace. -/

/-- Device events: task `t` spawns its playback subprocess / that
subprocess exits. -/
inductive Ev where
  | start (t : Bool)
  | exit (t : Bool)
  deriving DecidableEq, Repr

/-- The device-event program order of one `aplay` call by task `t`. -/
def aplaySeq (t : Bool) : List Ev := [.start t, .exit t]

/-- Subsequence test (order-preserving containment). -/
def isSubseq : List Ev → List Ev → Bool
  | [], _ => true
  | _ :: _, [] => false
  | a :: l1, b :: l2 => if a = b then isSubseq l1 l2 else isSubseq (a :: l1) l2

/-- The device traces the unsynchronized code admits when two tasks each
perform one `aplay`: every interleaving of the two per-task program
orders. -/
def schedulable (tr : List Ev) : Prop :=
  isSubseq (aplaySeq true) tr = true ∧ isSubseq (aplaySeq false) tr = true ∧
    tr.length = 4

/-- After the event prefix `pre`, both tasks have a playback subprocess in
flight (spawned but not yet exited). -/
def activeBoth (pre : List Ev) : Bool :=
  (pre.contains (.start true) && !pre.contains (.exit true)) &&
    (pre.contains (.start false) && !pre.contains (.exit false))

/-- The trace has a moment at which both playback subprocesses are in
flight: the audio is interleaved at the device. -/
def overlapB (tr : List Ev) : Bool :=
  (List.range (tr.length + 1)).any fun k => activeBoth (tr.take k)

/-- A schedulable trace in which the subprocess of the second task starts
while the subprocess of the first task is still running. -/
def overlapTrace : List Ev := [.start true, .start false, .exit true, .exit false]

/-- The device trace produced when the mqtt listener dispatches two `play`
commands itself: the message loop awaits each handler before reading the
next message, so the second operation starts only after the first has
exited. -/
def seqDispatchTrace : List Ev := aplaySeq true ++ aplaySeq false

end ClockButler

namespace ClockButler

/-! ## Helper lemmas -/

/-- A handler body wrapped in `try/except Exception` returns normally for
every outcome of the body. -/
theorem tryExcept_ok (body : Except PyErr Unit) : tryExcept body = .ok () := by
  cases body <;> rfl

/-- Behaviour of `inc_current` on a state whose script list is a JSON array
and whose position is set. -/
theorem inc_current_arr (xs : List Json) (fd : List (Int × Int)) (p : Int) :
    inc_current ⟨.jarr xs, fd, some p⟩ =
      .ok ⟨.jarr xs, fd, some (if p < (xs.length : Int) - 1 then p + 1 else 0)⟩ := by
  by_cases h : p < (xs.length : Int) - 1 <;> simp [inc_current, pyLen, h]

/-- Behaviour of `dec_current` on a state whose script list is a JSON array
and whose position is set. -/
theorem dec_current_arr (xs : List Json) (fd : List (Int × Int)) (p : Int) :
    dec_current ⟨.jarr xs, fd, some p⟩ =
      .ok ⟨.jarr xs, fd, some (if 0 < p then p - 1 else (xs.length : Int) - 1)⟩ := by
  by_cases h : 0 < p <;> simp [dec_current, pyLen, h]

/-- Iterating `inc_current` while staying strictly below the upper bound
advances the position one step at a time. -/
theorem incN_steps (xs : List Json) (fd : List (Int × Int)) (p k : Nat)
    (hk : p + k < xs.length) :
    incN k ⟨.jarr xs, fd, some (p : Int)⟩ =
      .ok ⟨.jarr xs, fd, some ((p + k : Nat) : Int)⟩ := by
  induction k with
  | zero => simp [incN]
  | succ k ih =>
      have hk' : p + k < xs.length := by omega
      simp only [incN, ih hk']
      show inc_current ⟨.jarr xs, fd, some ((p + k : Nat) : Int)⟩ = _
      rw [inc_current_arr]
      have hlt : ((p + k : Nat) : Int) < (xs.length : Int) - 1 := by
        push_cast
        omega
      have harith : ((p + k : Nat) : Int) + 1 = ((p + (k + 1) : Nat) : Int) := by
        push_cast
        omega
      rw [if_pos hlt, harith]

/-! ## Claims -/

/-- C2: a favorite stored at a position that is out of bounds for the
current (shorter) script list is claimed to yield none without reading out
of bounds and without raising.  The code has no bounds re-validation: after
setting the list to three scripts, moving the cursor to position 2, storing
it in favorite slot 1 and replacing the list by a single script,
`get_favorite(1)` dereferences the stale index 2 and raises `IndexError`. -/
theorem c2_stale_favorite_raises :
    (do
      let s0 := set_scripts Butler.init (some (.jarr [.jstr "a", .jstr "b", .jstr "c"]))
      let s1 ← inc_current s0
      let s2 ← inc_current s1
      let s3 := set_favorite s2 1
      let s4 := set_scripts s3 (some (.jarr [.jstr "x"]))
      get_favorite s4 1) = (Except.error PyErr.indexError : Except PyErr (Option Json)) := by
  rfl

/-- C3 counterexample: replacing a one-element script list by the empty
list leaves `current_position = some 0`, while the claim says the position
is unset after an empty replacement (and that the empty-list/unset
invariant is preserved). -/
theorem c3_counterexample :
    (set_scripts (set_scripts Butler.init (some (.jarr [.jstr "a"])))
        (some (.jarr []))).script_list = Json.jarr [] ∧
    (set_scripts (set_scripts Butler.init (some (.jarr [.jstr "a"])))
        (some (.jarr []))).current_position = some 0 :=
  ⟨rfl, rfl⟩

/-- C3 (amended): a successful `set_scripts` resets the position to 0 when
the new array is non-empty, and leaves the position unchanged (not unset)
when the new array is empty; the list itself is replaced in both cases. -/
theorem c3_set_scripts_position (b : Butler) (x : Json) (xs : List Json) :
    (set_scripts b (some (.jarr (x :: xs)))).script_list = Json.jarr (x :: xs) ∧
    (set_scripts b (some (.jarr (x :: xs)))).current_position = some 0 ∧
    (set_scripts b (some (.jarr []))).script_list = Json.jarr [] ∧
    (set_scripts b (some (.jarr []))).current_position = b.current_position := by
  have hpos : (0 : Int) < (((x :: xs).length : Nat) : Int) := by
    exact_mod_cast Nat.succ_pos xs.length
  refine ⟨?_, ?_, rfl, rfl⟩ <;>
    · simp only [set_scripts, pyLen]
      rw [if_pos hpos]

/-- C4 counterexample: the payload `5` is valid JSON but not a list of
identifiers.  The claim says such a payload leaves the stored list
unchanged; the code assigns the parsed value to `script_list` before the
`len` call raises, so the previously-set list `["a"]` is replaced by the
number 5. -/
theorem c4_counterexample :
    (set_scripts Butler.init (some (.jarr [.jstr "a"]))).script_list =
      Json.jarr [.jstr "a"] ∧
    (set_scripts (set_scripts Butler.init (some (.jarr [.jstr "a"])))
        (some (.jnum 5))).script_list = Json.jnum 5 ∧
    Json.jnum 5 ≠ Json.jarr [.jstr "a"] :=
  ⟨rfl, rfl, fun h => Json.noConfusion h⟩

/-- C4 (amended): only a payload that fails JSON parsing leaves the state
untouched (the error is logged).  A payload that parses to a non-list JSON
value is assigned to the script list before any validation: a JSON number
replaces the stored list (the later `len` call raises `TypeError`, which
the handler swallows), while the position and favorites stay unchanged. -/
theorem c4_set_scripts_nonlist (b : Butler) :
    set_scripts b none = b ∧
    ∀ n : Int,
      (set_scripts b (some (.jnum n))).script_list = Json.jnum n ∧
      (set_scripts b (some (.jnum n))).current_position = b.current_position ∧
      (set_scripts b (some (.jnum n))).favorite_dict = b.favorite_dict :=
  ⟨rfl, fun _ => ⟨rfl, rfl, rfl⟩⟩

/-- C5: the claim says `increment()` and `decrement()` are error-free
no-ops on an empty script list.  In the initial state (empty list,
`current_position = None`) both raise `TypeError`, because Python 3 refuses
to compare `None` with an integer. -/
theorem c5_inc_dec_on_empty_raise :
    inc_current Butler.init = Except.error PyErr.typeError ∧
    dec_current Butler.init = Except.error PyErr.typeError :=
  ⟨rfl, rfl⟩

/-- C6: the claim says `setFavorite` records the current position whenever
one is set, including position 0.  Directly after `set_scripts` the
position is 0, yet `set_favorite` is a no-op because `if
self.current_position:` treats the integer 0 as false. -/
theorem c6_set_favorite_position_zero_noop :
    (set_scripts Butler.init (some (.jarr [.jstr "a", .jstr "b"]))).current_position =
      some 0 ∧
    set_favorite (set_scripts Butler.init (some (.jarr [.jstr "a", .jstr "b"]))) 1 =
      set_scripts Butler.init (some (.jarr [.jstr "a", .jstr "b"])) ∧
    (set_favorite (set_scripts Butler.init (some (.jarr [.jstr "a", .jstr "b"]))) 1).favorite_dict =
      [] :=
  ⟨rfl, rfl, rfl⟩

end ClockButler

namespace ClockButler

/-- C7: publishing a JSON array of N ≥ 1 strings to `scripts` makes
`current()` return the first element, and N increments return the cursor to
the first element: the full state returns to what it was right after the
replacement. -/
theorem c7_set_scripts_cyclic (a : String) (t : List String) :
    get_current (set_scripts Butler.init (some (.jarr ((a :: t).map Json.jstr)))) =
      .ok (some (.jstr a)) ∧
    incN (a :: t).length (set_scripts Butler.init (some (.jarr ((a :: t).map Json.jstr)))) =
      .ok (set_scripts Butler.init (some (.jarr ((a :: t).map Json.jstr)))) := by
  have hpos : (0 : Int) < ((((a :: t).map Json.jstr).length : Nat) : Int) := by
    exact_mod_cast Nat.succ_pos (t.map Json.jstr).length
  have hb : set_scripts Butler.init (some (.jarr ((a :: t).map Json.jstr))) =
      ⟨.jarr ((a :: t).map Json.jstr), [], some 0⟩ := by
    simp only [set_scripts, pyLen, Butler.init]
    rw [if_pos hpos]
  rw [hb]
  constructor
  · simp only [get_current, pyIndex]
    norm_num
    rfl
  · have hlen : (a :: t).length = (t.map Json.jstr).length + 1 := by simp
    rw [hlen]
    simp only [incN]
    have hzero : ((0 : Nat) : Int) = (0 : Int) := rfl
    have hsteps := incN_steps ((a :: t).map Json.jstr) [] 0 (t.map Json.jstr).length
      (by simp)
    rw [hzero] at hsteps
    simp only [Nat.zero_add] at hsteps
    simp only [hsteps]
    show inc_current ⟨.jarr ((a :: t).map Json.jstr), [],
      some (((t.map Json.jstr).length : Nat) : Int)⟩ = _
    rw [inc_current_arr]
    have hwrap : ¬ (((t.map Json.jstr).length : Nat) : Int) <
        ((((a :: t).map Json.jstr).length : Nat) : Int) - 1 := by
      simp only [List.map_cons, List.length_cons]
      push_cast
      omega
    rw [if_neg hwrap]

/-- C8: on a non-empty list with a valid current position, `decrement()`
from position 0 wraps to position N-1, `decrement()` undoes `increment()`,
and `increment()` undoes `decrement()`. -/
theorem c8_dec_wrap_inverse (x : Json) (t : List Json) (fd : List (Int × Int))
    (p : Nat) (hp : p < (x :: t).length) :
    dec_current ⟨.jarr (x :: t), fd, some 0⟩ =
      .ok ⟨.jarr (x :: t), fd, some (((x :: t).length : Int) - 1)⟩ ∧
    Except.bind (inc_current ⟨.jarr (x :: t), fd, some (p : Int)⟩) dec_current =
      .ok ⟨.jarr (x :: t), fd, some (p : Int)⟩ ∧
    Except.bind (dec_current ⟨.jarr (x :: t), fd, some (p : Int)⟩) inc_current =
      .ok ⟨.jarr (x :: t), fd, some (p : Int)⟩ := by
  refine ⟨?_, ?_, ?_⟩
  · rw [dec_current_arr]
    norm_num
  · rw [inc_current_arr]
    by_cases h : (p : Int) < (((x :: t).length : Nat) : Int) - 1
    · rw [if_pos h]
      show dec_current ⟨.jarr (x :: t), fd, some ((p : Int) + 1)⟩ = _
      rw [dec_current_arr]
      rw [if_pos (by omega)]
      norm_num
    · rw [if_neg h]
      show dec_current ⟨.jarr (x :: t), fd, some 0⟩ = _
      rw [dec_current_arr]
      rw [if_neg (by omega)]
      have hp0 : (p : Int) = (((x :: t).length : Nat) : Int) - 1 := by
        simp only [List.length_cons] at h hp ⊢
        push_cast at h ⊢
        omega
      rw [← hp0]
  · rw [dec_current_arr]
    by_cases h : (0 : Int) < (p : Int)
    · rw [if_pos h]
      show inc_current ⟨.jarr (x :: t), fd, some ((p : Int) - 1)⟩ = _
      rw [inc_current_arr]
      have hlt : (p : Int) - 1 < (((x :: t).length : Nat) : Int) - 1 := by
        simp only [List.length_cons] at hp ⊢
        push_cast
        omega
      rw [if_pos hlt]
      norm_num
    · rw [if_neg h]
      show inc_current ⟨.jarr (x :: t), fd,
        some ((((x :: t).length : Nat) : Int) - 1)⟩ = _
      rw [inc_current_arr]
      rw [if_neg (by omega)]
      have hp0 : (p : Int) = 0 := by omega
      rw [hp0]

/-- C8 witness: the wrap-around and inverse laws instantiated on the
two-element list `["a", "b"]` at position 1. -/
theorem c8_witness :
    (1 < (Json.jstr "a" :: [Json.jstr "b"]).length) ∧
    (dec_current ⟨.jarr (Json.jstr "a" :: [Json.jstr "b"]), [], some 0⟩ =
      .ok ⟨.jarr (Json.jstr "a" :: [Json.jstr "b"]), [],
        some (((Json.jstr "a" :: [Json.jstr "b"]).length : Int) - 1)⟩ ∧
    Except.bind (inc_current ⟨.jarr (Json.jstr "a" :: [Json.jstr "b"]), [],
        some ((1 : Nat) : Int)⟩) dec_current =
      .ok ⟨.jarr (Json.jstr "a" :: [Json.jstr "b"]), [], some ((1 : Nat) : Int)⟩ ∧
    Except.bind (dec_current ⟨.jarr (Json.jstr "a" :: [Json.jstr "b"]), [],
        some ((1 : Nat) : Int)⟩) inc_current =
      .ok ⟨.jarr (Json.jstr "a" :: [Json.jstr "b"]), [], some ((1 : Nat) : Int)⟩) :=
  ⟨by decide, c8_dec_wrap_inverse (Json.jstr "a") [Json.jstr "b"] [] 1 (by decide)⟩

end ClockButler

namespace ClockButler

/-- C9 counterexample: a publish failure during button-press handling
propagates out of the handling path (the `gpi_listener` loop body has no
`try/except`), so the button watcher task is aborted — the claim says every
per-command failure is confined and the button watcher continues. -/
theorem c9_button_press_publish_failure_escapes :
    gpi_press (some Config.sample)
      { clientConnected := true, publishOk := false, aplayEnv := { spawnOk := true, rc := 0 } }
      (set_scripts Butler.init (some (.jarr [.jstr "a"]))) =
      Except.error PyErr.mqttError := by
  rfl

/-- C9 (amended): failures inside the bus-command handlers are confined —
`say`, `play` and `aplay` return normally for every environment outcome and
no exception escapes `volume` — but the button-press path is not protected:
there is a configuration, environment and state (a stale current position
on an emptied script list) for which the press handling raises, aborting
the button watcher. -/
theorem c9_handlers_confined_but_button_path_not :
    (∀ (cfg : Option Config) (env : SayEnv), say cfg env = Except.ok ()) ∧
    (∀ (cfg : Option Config) (env : AplayEnv), play cfg env = Except.ok ()) ∧
    (∀ (cfg : Option Config) (env : AplayEnv), aplay cfg env = Except.ok ()) ∧
    (∀ (cfg : Option Config) (env : VolumeEnv), (volume cfg env).2 = none) ∧
    (∃ (cfg : Option Config) (env : PressEnv) (b : Butler) (e : PyErr),
      gpi_press cfg env b = Except.error e) := by
  refine ⟨fun cfg env => tryExcept_ok _, fun cfg env => tryExcept_ok _,
    fun cfg env => tryExcept_ok _, ?_, ?_⟩
  · intro cfg env
    unfold volume
    rcases hv : volumeBody cfg env with ⟨eff, err⟩
    cases err <;> simp
  · exact ⟨some Config.sample,
      { clientConnected := true, publishOk := true, aplayEnv := { spawnOk := true, rc := 0 } },
      set_scripts (set_scripts Butler.init (some (.jarr [.jstr "a"]))) (some (.jarr [])),
      PyErr.indexError, rfl⟩

/-- C10: whenever the mixer subprocess spawns and exits with code 0, the
`volume` handler runs into the unbound name `path` on the beep line and
raises `NameError`; its own `except Exception` clause catches and logs it.
So on success the confirmation beep is never played, no exception escapes
the handler, and the already-applied volume change stays in effect. -/
theorem c10_volume_success_nameerror (c : Config) (env : VolumeEnv)
    (hs : env.spawnOk = true) (hr : env.rc = 0) :
    volumeBody (some c) env =
      ({ mixerInvoked := true, volumeApplied := true, beepPlayed := false,
         errorLogged := false }, some PyErr.nameError) ∧
    volume (some c) env =
      ({ mixerInvoked := true, volumeApplied := true, beepPlayed := false,
         errorLogged := true }, none) := by
  obtain ⟨sp, rc⟩ := env
  simp only at hs hr
  subst hs
  subst hr
  exact ⟨rfl, rfl⟩

/-- C10 witness: the success-path behaviour of `volume` at a concrete
loaded configuration and a mixer run that exits 0. -/
theorem c10_witness :
    ((⟨true, 0⟩ : VolumeEnv).spawnOk = true ∧ (⟨true, 0⟩ : VolumeEnv).rc = 0) ∧
    (volumeBody (some Config.sample) ⟨true, 0⟩ =
      ({ mixerInvoked := true, volumeApplied := true, beepPlayed := false,
         errorLogged := false }, some PyErr.nameError) ∧
    volume (some Config.sample) ⟨true, 0⟩ =
      ({ mixerInvoked := true, volumeApplied := true, beepPlayed := false,
         errorLogged := true }, none)) :=
  ⟨⟨rfl, rfl⟩, c10_volume_success_nameerror Config.sample ⟨true, 0⟩ rfl rfl⟩

/-- C1 counterexample: the interleaving in which the second task spawns its
playback subprocess while the first subprocess is still running is
schedulable for the unsynchronized code, and it has both subprocesses in
flight at once — the claim says no schedulable trace interleaves audio at
the device. -/
theorem c1_counterexample :
    schedulable overlapTrace ∧ overlapB overlapTrace = true := by
  exact ⟨⟨by decide, by decide, by decide⟩, by decide⟩

/-- C1 (amended): the code takes no device-level lock, so two concurrent
playback operations can overlap at the device — a schedulable trace exists
with both subprocesses in flight at once.  Only operations dispatched
sequentially by the single mqtt listener task are serialized (the message
loop awaits each handler), giving the overlap-free trace
`seqDispatchTrace`. -/
theorem c1_no_device_lock :
    (∃ tr, schedulable tr ∧ overlapB tr = true) ∧
    overlapB seqDispatchTrace = false := by
  refine ⟨⟨[Ev.start true, Ev.start false, Ev.exit true, Ev.exit false],
    ⟨by decide, by decide, by decide⟩, by decide⟩, by decide⟩

end ClockButler
